import Mathlib

/-!
Shallow embedding of the notification-delivery core (Go package
`notifications`, plus the `news` read path) and proofs of the spec claims.

Conventions of the embedding:
* Go `error` values are `Option Err` (`none` = nil error).
* `errors.Wrap(err, msg)` returns nil on a nil error, so wrapping maps over
  the option.
* `multierror.Append(nil, errs...)` skips nil errors; `.ErrorOrNil()` is nil
  when no non-nil error was appended.
* A Go `context.Context` is modelled by the observations the code makes of
  it: `Err()` (cancellation / deadline state) and the deadline that
  `context.WithTimeout` installed, if any.
* Time values are `Int` (units abstract over the Go durations).
-/

namespace Husky

/-- Go `error` values (the shapes this package constructs). -/
inductive Err where
  | base (msg : String)
  | wrap (msg : String) (cause : Err)
  | multi (errs : List Err)

/-- Go `errors.Wrap(err, msg)`: nil in, nil out; otherwise wraps the cause. -/
def wrapErr (e : Option Err) (msg : String) : Option Err :=
  e.map (Err.wrap msg)

/-- Go `multierror.Append(nil, errs...).ErrorOrNil()`: drops nil entries and
returns nil when nothing remains. -/
def multiAppendErrorOrNil (errs : List (Option Err)) : Option Err :=
  match errs.filterMap id with
  | [] => none
  | es => some (Err.multi es)

/-- The observations the code makes of a `context.Context`: `ctx.Err()` and
the deadline installed by `context.WithTimeout`, if any. -/
structure Ctx where
  err : Option Err
  deadline : Option Int

/-- A healthy background context: not cancelled, no deadline. -/
def Ctx.background : Ctx := { err := none, deadline := none }

/-- Go `context.WithTimeout(parent, d)`: the child shares the parent's
cancellation state and carries the deadline `d` (tighter of the two when the
parent already had one). -/
def Ctx.withTimeout (parent : Ctx) (d : Int) : Ctx :=
  { err := parent.err
    deadline := some (match parent.deadline with
      | none => d
      | some pd => min pd d) }

/-- Go `runConcurrently` (file `part_001`, lines 191–215), instrumented with the
list of arguments whose branch was actually started.  The Go code checks
`ctx.Err()` first, then returns nil for an empty argument list, otherwise
starts one goroutine per argument, waits for all of them, collects every
(wrapped) branch result through the channel and folds the non-nil ones with
`multierror`. -/
def runConcurrently (ctx : Ctx) (run : Ctx → α → Option Err) (args : List α) :
    Option Err × List α :=
  match ctx.err with
  | some e => (some (Err.wrap "unexpected deadline" e), [])
  | none =>
    if args.isEmpty then (none, [])
    else
      let errs := args.map fun a => wrapErr (run ctx a) "failed to run"
      (wrapErr (multiAppendErrorOrNil errs) "at least one execution failed", args)

/-! ## Idempotency ledger (`sent_notifications` / `sent_announcements`) -/

/-- A row of the `sent_notifications` table (personal scope: carries
`user_id`), per the column list of `insertSentNotification`. -/
structure SentNotification where
  sentAt : Int
  language : String
  userID : String
  uniqueness : String
  notificationType : String
  notificationChannel : String
  notificationChannelValue : String
  deriving DecidableEq, Repr

/-- A row of the `sent_announcements` table (broadcast scope: no
`user_id`), per the column list of `insertSentAnnouncement`. -/
structure SentAnnouncement where
  sentAt : Int
  language : String
  uniqueness : String
  notificationType : String
  notificationChannel : String
  notificationChannelValue : String
  deriving DecidableEq, Repr

/-- The relational store as the code touches it: the two ledger tables. -/
structure DB where
  sentNotifications : List SentNotification
  sentAnnouncements : List SentAnnouncement
  deriving DecidableEq, Repr

/-- Go `insertSentNotification`: `INSERT INTO sent_notifications (SENT_AT,
LANGUAGE, USER_ID, UNIQUENESS, NOTIFICATION_TYPE, NOTIFICATION_CHANNEL,
NOTIFICATION_CHANNEL_VALUE)` — the row stored includes the recipient. -/
def insertSentNotification (db : DB) (sn : SentNotification) : DB :=
  { db with sentNotifications := db.sentNotifications ++ [sn] }

/-- The `WHERE` clause of `deleteSentNotification`: matches on
`user_id, uniqueness, notification_type, notification_channel,
notification_channel_value`. -/
def sentNotificationDeleteMatches (q r : SentNotification) : Bool :=
  r.userID == q.userID &&
  r.uniqueness == q.uniqueness &&
  r.notificationType == q.notificationType &&
  r.notificationChannel == q.notificationChannel &&
  r.notificationChannelValue == q.notificationChannelValue

/-- Go `deleteSentNotification`: `DELETE FROM sent_notifications WHERE user_id =
$1 AND uniqueness = $2 AND notification_type = $3 AND notification_channel =
$4 AND notification_channel_value = $5`. -/
def deleteSentNotification (db : DB) (q : SentNotification) : DB :=
  { db with
    sentNotifications :=
      db.sentNotifications.filter fun r => !sentNotificationDeleteMatches q r }

/-- Go `insertSentAnnouncement`: `INSERT INTO sent_announcements (SENT_AT,
LANGUAGE, UNIQUENESS, NOTIFICATION_TYPE, NOTIFICATION_CHANNEL,
NOTIFICATION_CHANNEL_VALUE)` — no recipient column. -/
def insertSentAnnouncement (db : DB) (sa : SentAnnouncement) : DB :=
  { db with sentAnnouncements := db.sentAnnouncements ++ [sa] }

/-- The `WHERE` clause of `deleteSentAnnouncement`: matches on
`uniqueness, notification_type, notification_channel,
notification_channel_value` — no user identity. -/
def sentAnnouncementDeleteMatches (q r : SentAnnouncement) : Bool :=
  r.uniqueness == q.uniqueness &&
  r.notificationType == q.notificationType &&
  r.notificationChannel == q.notificationChannel &&
  r.notificationChannelValue == q.notificationChannelValue

/-- Go `deleteSentAnnouncement`: `DELETE FROM sent_announcements WHERE
uniqueness = $1 AND notification_type = $2 AND notification_channel = $3 AND
notification_channel_value = $4`. -/
def deleteSentAnnouncement (db : DB) (q : SentAnnouncement) : DB :=
  { db with
    sentAnnouncements :=
      db.sentAnnouncements.filter fun r => !sentAnnouncementDeleteMatches q r }

/-! ## Retention pruning -/

/-- The retention window used by both prune passes:
`stdlibtime.Now().Add(-24 * stdlibtime.Hour)`. -/
def retentionWindow : Int := 24

/-- Go `deleteOldSentNotifications`: bails out with a wrapped `ctx.Err()`
before touching the store; otherwise executes
`DELETE FROM sent_notifications WHERE sent_at < $1` with `$1 = now - 24h`.
`execErr` is the outcome of the single `storage.Exec` call; a failed SQL
statement is atomic, so on failure the table is unchanged and the error is
wrapped.  Returns the Go error and the store state after the call. -/
def deleteOldSentNotifications (ctx : Ctx) (execErr : Option Err) (now : Int)
    (db : DB) : Option Err × DB :=
  match ctx.err with
  | some e => (some (Err.wrap "unexpected deadline" e), db)
  | none =>
    match execErr with
    | some e =>
        (some (Err.wrap "failed to delete old data from sent_notifications" e),
         db)
    | none =>
      (none,
       { db with
         sentNotifications :=
           db.sentNotifications.filter fun r =>
             !(decide (r.sentAt < now - retentionWindow)) })

/-- Go `deleteOldSentAnnouncements`: same shape over `sent_announcements`. -/
def deleteOldSentAnnouncements (ctx : Ctx) (execErr : Option Err) (now : Int)
    (db : DB) : Option Err × DB :=
  match ctx.err with
  | some e => (some (Err.wrap "unexpected deadline" e), db)
  | none =>
    match execErr with
    | some e =>
        (some (Err.wrap "failed to delete old data from sent_announcements" e),
         db)
    | none =>
      (none,
       { db with
         sentAnnouncements :=
           db.sentAnnouncements.filter fun r =>
             !(decide (r.sentAt < now - retentionWindow)) })

/-! ## Retention sweeper loops -/

/-- Go `rand.Intn(n)`: a value in `[0, n)` drawn from the process seed. -/
def randIntn (n seed : Nat) : Nat := seed % n

/-- The ticker interval of both cleaner loops:
`stdlibtime.Duration(1+rand.Intn(24)) * stdlibtime.Minute`, computed once
when the loop starts. -/
def tickerInterval (seed : Nat) : Nat := 1 + randIntn 24 seed

/-- Go `const deadline = 30 * stdlibtime.Second` inside both cleaner loops. -/
def cleanerDeadline : Int := 30

/-- The context a cleanup pass runs under:
`reqCtx, cancel := context.WithTimeout(ctx, deadline)`, built afresh from
the owning context on every tick. -/
def cleanerPassCtx (ctx : Ctx) : Ctx := ctx.withTimeout cleanerDeadline

/-- What the `select` in a cleaner loop can observe: the ticker firing (with
the outcome the store will give that pass's `storage.Exec` call) or the
owning context's done channel. -/
inductive SweeperEvent where
  | tick (execErr : Option Err)
  | ctxDone

/-- One `ticker.C` arm of `startOldSentNotificationsCleaner`:
`reqCtx, cancel := context.WithTimeout(ctx, deadline)`, run the prune under
`reqCtx`, `log.Error` the wrapped result, `cancel()`.  Returns the logged
error and the store state after the pass; the loop continues either way. -/
def notificationsCleanerTick (ctx : Ctx) (execErr : Option Err) (now : Int)
    (db : DB) : Option Err × DB :=
  let res := deleteOldSentNotifications (cleanerPassCtx ctx) execErr now db
  (wrapErr res.1 "failed to deleteOldSentNotifications", res.2)

/-- One `ticker.C` arm of `startOldSentAnnouncementsCleaner`. -/
def announcementsCleanerTick (ctx : Ctx) (execErr : Option Err) (now : Int)
    (db : DB) : Option Err × DB :=
  let res := deleteOldSentAnnouncements (cleanerPassCtx ctx) execErr now db
  (wrapErr res.1 "failed to deleteOldSentAnnouncements", res.2)

/-- The `for { select { ... } }` loop of `startOldSentNotificationsCleaner`,
run over a finite trace of observed events.  Returns the final store state
and whether the loop returned (`<-ctx.Done()` arm chosen). -/
def notificationsCleanerRun (ctx : Ctx) (now : Int) :
    List SweeperEvent → DB → DB × Bool
  | [], db => (db, false)
  | .ctxDone :: _, db => (db, true)
  | .tick execErr :: rest, db =>
      notificationsCleanerRun ctx now rest
        (notificationsCleanerTick ctx execErr now db).2

/-- The loop of `startOldSentAnnouncementsCleaner` over a finite trace. -/
def announcementsCleanerRun (ctx : Ctx) (now : Int) :
    List SweeperEvent → DB → DB × Bool
  | [], db => (db, false)
  | .ctxDone :: _, db => (db, true)
  | .tick execErr :: rest, db =>
      announcementsCleanerRun ctx now rest
        (announcementsCleanerTick ctx execErr now db).2

/-! ## Health probe -/

/-- Go `CheckHealth`: pings the store, marshals a synthetic `{ts}` message and
round-trips it through the broker producer, short-circuiting on the first
failure.  The three fallible steps are functions of the context they are
handed.  The second component of the result is the context passed to
`p.db.Ping` — the code forwards its `ctx` argument unchanged and installs no
deadline of its own. -/
def CheckHealth (ctx : Ctx) (ping marshal send : Ctx → Option Err) :
    Option Err × Ctx :=
  (match ping ctx with
   | some e => some (Err.wrap "[health-check] failed to ping DB" e)
   | none =>
     match marshal ctx with
     | some e => some (Err.wrap "[health-check] failed to marshal" e)
     | none =>
       wrapErr (send ctx)
         "[health-check] failed to send health check message to broker",
   ctx)

/-! ## Suppression configuration -/

/-- The `disabled-achievements-notifications` block of the config. -/
structure DisabledAchievementsNotifications where
  levels : List String
  badges : List String
  roles : List String
  deriving DecidableEq, Repr

/-- The slice of the process config these predicates read. -/
structure Config where
  disabledAchievementsNotifications : DisabledAchievementsNotifications
  deriving DecidableEq, Repr

/-- Simple case folding of one code point, as Go `strings.EqualFold`
performs it on the ASCII names this config uses: upper-case ASCII letters
fold to their lower-case counterpart. -/
def foldCase (n : Nat) : Nat := if 65 ≤ n ∧ n ≤ 90 then n + 32 else n

/-- Go `strings.EqualFold` restricted to those names: the strings are equal
under character-wise simple case folding. -/
def equalFold (a b : String) : Bool :=
  a.data.map (fun c => foldCase c.toNat) ==
    b.data.map (fun c => foldCase c.toNat)

/-- Go `IsLevelNotificationDisabled`: early `false` on an empty list, then a
linear scan returning `true` on the first case-insensitive match. -/
def IsLevelNotificationDisabled (cfg : Config) (levelName : String) : Bool :=
  if cfg.disabledAchievementsNotifications.levels.length == 0 then false
  else cfg.disabledAchievementsNotifications.levels.any fun l =>
    equalFold l levelName

/-- Go `IsBadgeNotificationDisabled`: same scan over the badges list. -/
def IsBadgeNotificationDisabled (cfg : Config) (badgeName : String) : Bool :=
  if cfg.disabledAchievementsNotifications.badges.length == 0 then false
  else cfg.disabledAchievementsNotifications.badges.any fun b =>
    equalFold b badgeName

/-- Go `IsRoleNotificationDisabled`: same scan over the roles list. -/
def IsRoleNotificationDisabled (cfg : Config) (roleName : String) : Bool :=
  if cfg.disabledAchievementsNotifications.roles.length == 0 then false
  else cfg.disabledAchievementsNotifications.roles.any fun r =>
    equalFold r roleName

/-! ## News read path (`news` package, `GetNews`) -/

/-- The fields of a `PersonalNews` row that `GetNews` reads or writes. -/
structure PersonalNews where
  viewed : Option Bool
  createdAt : Int
  notificationChannels : Option (List String)
  updatedAt : Option Int
  imageURL : String
  deriving DecidableEq, Repr

/-- The body of the post-processing loop of `GetNews`: an unviewed row
(`Viewed` present and `false`) created strictly before the `createdAfter`
cutoff is reported as viewed; `NotificationChannels` and `UpdatedAt` are
cleared; `ImageURL` is rewritten through the picture client. -/
def getNewsPostProcess (createdAfter : Int) (downloadURL : String → String)
    (elem : PersonalNews) : PersonalNews :=
  let elem :=
    if elem.viewed == some false && decide (elem.createdAt < createdAfter) then
      { elem with viewed := some true }
    else elem
  { elem with
    notificationChannels := none
    updatedAt := none
    imageURL := downloadURL elem.imageURL }

/-- Go `GetNews`: fails on an already-failed context, propagates a query error,
turns a nil result slice into an empty one, and otherwise applies the
post-processing loop to every row.  The SELECT outcome is passed in
(`.error e` = query error, `.ok none` = nil slice, `.ok (some rows)`). -/
def GetNews (ctx : Ctx)
    (selectResult : Except Err (Option (List PersonalNews)))
    (createdAfter : Int) (downloadURL : String → String) :
    Except Err (List PersonalNews) :=
  match ctx.err with
  | some e => .error (Err.wrap "get news failed because context failed" e)
  | none =>
    match selectResult with
    | .error e => .error (Err.wrap "failed to get news for args" e)
    | .ok none => .ok []
    | .ok (some rows) =>
        .ok (rows.map (getNewsPostProcess createdAfter downloadURL))

/-- The composite key addressing a personal sent-notification row: the
columns of the `deleteSentNotification` WHERE clause, recipient identity
included. -/
def sentNotificationKey (r : SentNotification) :
    String × String × String × String × String :=
  (r.userID, r.uniqueness, r.notificationType, r.notificationChannel,
   r.notificationChannelValue)

/-- The composite key addressing a broadcast sent-announcement row: the
columns of the `deleteSentAnnouncement` WHERE clause — no user identity. -/
def sentAnnouncementKey (r : SentAnnouncement) :
    String × String × String × String :=
  (r.uniqueness, r.notificationType, r.notificationChannel,
   r.notificationChannelValue)

/-! ## Helper lemmas -/

lemma multiAppendErrorOrNil_eq_none (errs : List (Option Err)) :
    multiAppendErrorOrNil errs = none ↔ errs.filterMap id = [] := by
  rcases h : errs.filterMap id with _ | ⟨e, es⟩ <;>
    simp [multiAppendErrorOrNil, h]

lemma multiAppendErrorOrNil_of_ne_nil (errs : List (Option Err)) (e : Err)
    (es : List Err) (h : errs.filterMap id = e :: es) :
    multiAppendErrorOrNil errs = some (Err.multi (e :: es)) := by
  simp [multiAppendErrorOrNil, h]

/-! ## Claims about the concurrent fan-out -/

/-- C1: with a live context and a non-empty argument list, `runConcurrently`
starts every branch (no short-circuiting), succeeds exactly when no branch
fails, and on any branch failure returns one aggregate error that contains
every individual branch failure. -/
theorem runConcurrently_no_shortcircuit_aggregates {α : Type} (ctx : Ctx)
    (run : Ctx → α → Option Err) (args : List α)
    (hctx : ctx.err = none) (hne : args ≠ []) :
    (runConcurrently ctx run args).2 = args ∧
    ((runConcurrently ctx run args).1 = none ↔
      ∀ a ∈ args, run ctx a = none) ∧
    ∀ a ∈ args, ∀ e, run ctx a = some e →
      ∃ es, (runConcurrently ctx run args).1 =
          some (Err.wrap "at least one execution failed" (Err.multi es)) ∧
        Err.wrap "failed to run" e ∈ es := by
  obtain ⟨a0, rest, rfl⟩ := List.exists_cons_of_ne_nil hne
  have hrun : runConcurrently ctx run (a0 :: rest) =
      (wrapErr
        (multiAppendErrorOrNil
          ((a0 :: rest).map fun a => wrapErr (run ctx a) "failed to run"))
        "at least one execution failed",
       a0 :: rest) := by
    simp [runConcurrently, hctx]
  refine ⟨by rw [hrun], ?_, ?_⟩
  · rw [hrun]
    simp only [wrapErr, Option.map_eq_none', multiAppendErrorOrNil_eq_none,
      List.filterMap_map]
    rw [List.filterMap_eq_nil_iff]
    simp
  · intro a ha e he
    have hmem : Err.wrap "failed to run" e ∈
        ((a0 :: rest).map fun x =>
          wrapErr (run ctx x) "failed to run").filterMap id := by
      rw [List.filterMap_map]
      exact List.mem_filterMap.mpr ⟨a, ha, by simp [wrapErr, he]⟩
    rcases h : ((a0 :: rest).map fun x =>
        wrapErr (run ctx x) "failed to run").filterMap id with _ | ⟨e0, es⟩
    · rw [h] at hmem
      cases hmem
    · refine ⟨e0 :: es, ?_, by rw [h] at hmem; exact hmem⟩
      rw [hrun]
      show wrapErr _ _ = _
      rw [multiAppendErrorOrNil_of_ne_nil _ e0 es h]
      rfl

/-- A branch function for concrete instances: argument 2 fails, others
succeed. -/
def witnessRun : Ctx → Nat → Option Err := fun _ n =>
  if n == 2 then some (Err.base "channel send failed") else none

/-- An already-cancelled context for concrete instances. -/
def cancelledCtx : Ctx :=
  { err := some (Err.base "context canceled"), deadline := none }

/-- Witness for C1 at the live background context and arguments [1, 2, 3]. -/
theorem runConcurrently_no_shortcircuit_aggregates_witness :
    (runConcurrently Ctx.background witnessRun [1, 2, 3]).2 = [1, 2, 3] ∧
    ((runConcurrently Ctx.background witnessRun [1, 2, 3]).1 = none ↔
      ∀ a ∈ [1, 2, 3], witnessRun Ctx.background a = none) ∧
    ∀ a ∈ [1, 2, 3], ∀ e, witnessRun Ctx.background a = some e →
      ∃ es, (runConcurrently Ctx.background witnessRun [1, 2, 3]).1 =
          some (Err.wrap "at least one execution failed" (Err.multi es)) ∧
        Err.wrap "failed to run" e ∈ es :=
  runConcurrently_no_shortcircuit_aggregates Ctx.background witnessRun
    [1, 2, 3] rfl (by decide)

/-- C2: a context that has already failed makes `runConcurrently` return a
wrapped context error at once, with no branch started, for every argument
list. -/
theorem runConcurrently_cancelled_no_branches {α : Type} (ctx : Ctx)
    (run : Ctx → α → Option Err) (args : List α) (e : Err)
    (h : ctx.err = some e) :
    runConcurrently ctx run args =
      (some (Err.wrap "unexpected deadline" e), []) := by
  simp [runConcurrently, h]

/-- Witness for C2 at a concrete cancelled context. -/
theorem runConcurrently_cancelled_no_branches_witness :
    runConcurrently cancelledCtx witnessRun [1, 2, 3] =
      (some (Err.wrap "unexpected deadline" (Err.base "context canceled")),
       []) :=
  runConcurrently_cancelled_no_branches cancelledCtx witnessRun [1, 2, 3]
    (Err.base "context canceled") rfl

/-! ## Claims about retention pruning -/

/-- C3: one successful prune pass removes exactly the rows strictly older
than the cutoff `now - 24` from the swept table, keeps every row at or after
the cutoff, leaves the other table untouched, and re-running with the same
cutoff deletes nothing further. -/
theorem prune_exact_and_idempotent (ctx : Ctx) (now : Int) (db : DB)
    (hctx : ctx.err = none) :
    ((deleteOldSentNotifications ctx none now db).1 = none ∧
     (∀ r ∈ (deleteOldSentNotifications ctx none now db).2.sentNotifications,
        r ∈ db.sentNotifications ∧ now - retentionWindow ≤ r.sentAt) ∧
     (∀ r ∈ db.sentNotifications, now - retentionWindow ≤ r.sentAt →
        r ∈ (deleteOldSentNotifications ctx none now db).2.sentNotifications) ∧
     (deleteOldSentNotifications ctx none now db).2.sentAnnouncements =
        db.sentAnnouncements ∧
     deleteOldSentNotifications ctx none now
        (deleteOldSentNotifications ctx none now db).2 =
       (none, (deleteOldSentNotifications ctx none now db).2)) ∧
    ((deleteOldSentAnnouncements ctx none now db).1 = none ∧
     (∀ r ∈ (deleteOldSentAnnouncements ctx none now db).2.sentAnnouncements,
        r ∈ db.sentAnnouncements ∧ now - retentionWindow ≤ r.sentAt) ∧
     (∀ r ∈ db.sentAnnouncements, now - retentionWindow ≤ r.sentAt →
        r ∈ (deleteOldSentAnnouncements ctx none now db).2.sentAnnouncements) ∧
     (deleteOldSentAnnouncements ctx none now db).2.sentNotifications =
        db.sentNotifications ∧
     deleteOldSentAnnouncements ctx none now
        (deleteOldSentAnnouncements ctx none now db).2 =
       (none, (deleteOldSentAnnouncements ctx none now db).2)) := by
  have hN : ∀ d : DB, deleteOldSentNotifications ctx none now d =
      (none,
       { d with
         sentNotifications := d.sentNotifications.filter fun r =>
           !(decide (r.sentAt < now - retentionWindow)) }) := by
    intro d
    simp [deleteOldSentNotifications, hctx]
  have hA : ∀ d : DB, deleteOldSentAnnouncements ctx none now d =
      (none,
       { d with
         sentAnnouncements := d.sentAnnouncements.filter fun r =>
           !(decide (r.sentAt < now - retentionWindow)) }) := by
    intro d
    simp [deleteOldSentAnnouncements, hctx]
  refine ⟨⟨by simp [hN], ?_, ?_, by simp [hN], ?_⟩,
          ⟨by simp [hA], ?_, ?_, by simp [hA], ?_⟩⟩
  · intro r hr
    rw [hN] at hr
    simp only [List.mem_filter, Bool.not_eq_eq_eq_not, Bool.not_true,
      decide_eq_false_iff_not, not_lt] at hr
    exact hr
  · intro r hr hcut
    rw [hN]
    simp only [List.mem_filter, Bool.not_eq_eq_eq_not, Bool.not_true,
      decide_eq_false_iff_not, not_lt]
    exact ⟨hr, hcut⟩
  · rw [hN, hN]
    simp [List.filter_filter]
  · intro r hr
    rw [hA] at hr
    simp only [List.mem_filter, Bool.not_eq_eq_eq_not, Bool.not_true,
      decide_eq_false_iff_not, not_lt] at hr
    exact hr
  · intro r hr hcut
    rw [hA]
    simp only [List.mem_filter, Bool.not_eq_eq_eq_not, Bool.not_true,
      decide_eq_false_iff_not, not_lt]
    exact ⟨hr, hcut⟩
  · rw [hA, hA]
    simp [List.filter_filter]

/-- A personal ledger row at a given timestamp, for concrete instances. -/
def snRow (t : Int) : SentNotification :=
  { sentAt := t, language := "en", userID := "u1", uniqueness := "k"
    notificationType := "t", notificationChannel := "push"
    notificationChannelValue := "v" }

/-- A broadcast ledger row at a given timestamp, for concrete instances. -/
def saRow (t : Int) : SentAnnouncement :=
  { sentAt := t, language := "en", uniqueness := "k"
    notificationType := "t", notificationChannel := "push"
    notificationChannelValue := "v" }

/-- A concrete ledger with one stale and one fresh row per table. -/
def pruneDB : DB :=
  { sentNotifications := [snRow 0, snRow 50]
    sentAnnouncements := [saRow 0, saRow 50] }

/-- Witness for C3 at a concrete ledger and `now = 30` (cutoff 6). -/
theorem prune_exact_and_idempotent_witness :
    ((deleteOldSentNotifications Ctx.background none 30 pruneDB).1 = none ∧
     (∀ r ∈ (deleteOldSentNotifications Ctx.background none 30
          pruneDB).2.sentNotifications,
        r ∈ pruneDB.sentNotifications ∧ 30 - retentionWindow ≤ r.sentAt) ∧
     (∀ r ∈ pruneDB.sentNotifications, 30 - retentionWindow ≤ r.sentAt →
        r ∈ (deleteOldSentNotifications Ctx.background none 30
          pruneDB).2.sentNotifications) ∧
     (deleteOldSentNotifications Ctx.background none 30
        pruneDB).2.sentAnnouncements = pruneDB.sentAnnouncements ∧
     deleteOldSentNotifications Ctx.background none 30
        (deleteOldSentNotifications Ctx.background none 30 pruneDB).2 =
       (none, (deleteOldSentNotifications Ctx.background none 30
         pruneDB).2)) ∧
    ((deleteOldSentAnnouncements Ctx.background none 30 pruneDB).1 = none ∧
     (∀ r ∈ (deleteOldSentAnnouncements Ctx.background none 30
          pruneDB).2.sentAnnouncements,
        r ∈ pruneDB.sentAnnouncements ∧ 30 - retentionWindow ≤ r.sentAt) ∧
     (∀ r ∈ pruneDB.sentAnnouncements, 30 - retentionWindow ≤ r.sentAt →
        r ∈ (deleteOldSentAnnouncements Ctx.background none 30
          pruneDB).2.sentAnnouncements) ∧
     (deleteOldSentAnnouncements Ctx.background none 30
        pruneDB).2.sentNotifications = pruneDB.sentNotifications ∧
     deleteOldSentAnnouncements Ctx.background none 30
        (deleteOldSentAnnouncements Ctx.background none 30 pruneDB).2 =
       (none, (deleteOldSentAnnouncements Ctx.background none 30
         pruneDB).2)) :=
  prune_exact_and_idempotent Ctx.background 30 pruneDB rfl

/-- C9: with a context already failed at call time, both prune operations
return the wrapped context error and leave the ledger exactly as it was —
no DELETE is issued, whatever the store would have answered. -/
theorem prune_precancelled_no_delete (ctx : Ctx) (execErr : Option Err)
    (now : Int) (db : DB) (e : Err) (h : ctx.err = some e) :
    deleteOldSentNotifications ctx execErr now db =
      (some (Err.wrap "unexpected deadline" e), db) ∧
    deleteOldSentAnnouncements ctx execErr now db =
      (some (Err.wrap "unexpected deadline" e), db) := by
  constructor <;>
    simp [deleteOldSentNotifications, deleteOldSentAnnouncements, h]

/-- Witness for C9 at a concrete cancelled context and ledger. -/
theorem prune_precancelled_no_delete_witness :
    deleteOldSentNotifications cancelledCtx none 30 pruneDB =
      (some (Err.wrap "unexpected deadline" (Err.base "context canceled")),
       pruneDB) ∧
    deleteOldSentAnnouncements cancelledCtx none 30 pruneDB =
      (some (Err.wrap "unexpected deadline" (Err.base "context canceled")),
       pruneDB) :=
  prune_precancelled_no_delete cancelledCtx none 30 pruneDB
    (Err.base "context canceled") rfl

/-! ## Claims about the retention sweeper and the per-operation deadlines -/

lemma notificationsCleanerRun_cancelled (ctx : Ctx) (now : Int) (e : Err)
    (h : ctx.err = some e) :
    ∀ (evs : List SweeperEvent) (db : DB),
      (notificationsCleanerRun ctx now evs db).1 = db := by
  intro evs
  induction evs with
  | nil => intro db; rfl
  | cons ev rest ih =>
    intro db
    cases ev with
    | ctxDone => rfl
    | tick execErr =>
      have hbody : (notificationsCleanerTick ctx execErr now db).2 = db := by
        simp [notificationsCleanerTick, deleteOldSentNotifications,
          cleanerPassCtx, Ctx.withTimeout, h]
      show (notificationsCleanerRun ctx now rest
        (notificationsCleanerTick ctx execErr now db).2).1 = db
      rw [hbody]
      exact ih db

lemma announcementsCleanerRun_cancelled (ctx : Ctx) (now : Int) (e : Err)
    (h : ctx.err = some e) :
    ∀ (evs : List SweeperEvent) (db : DB),
      (announcementsCleanerRun ctx now evs db).1 = db := by
  intro evs
  induction evs with
  | nil => intro db; rfl
  | cons ev rest ih =>
    intro db
    cases ev with
    | ctxDone => rfl
    | tick execErr =>
      have hbody : (announcementsCleanerTick ctx execErr now db).2 = db := by
        simp [announcementsCleanerTick, deleteOldSentAnnouncements,
          cleanerPassCtx, Ctx.withTimeout, h]
      show (announcementsCleanerRun ctx now rest
        (announcementsCleanerTick ctx execErr now db).2).1 = db
      rw [hbody]
      exact ih db

/-- C4: the cleaner interval is randomized once per start within [1, 24]; a
tick whose prune pass fails logs the wrapped failure and the loop continues
with the next event; the done arm terminates the loop immediately; and under
a cancelled owning context no sequence of events effects a prune — the
ledger stays untouched. -/
theorem sweeper_interval_logs_continues_terminates (seed : Nat)
    (ctx ctxC : Ctx) (now : Int) (db : DB) (e eC : Err)
    (evs : List SweeperEvent) (hctx : ctx.err = none)
    (hctxC : ctxC.err = some eC) :
    (1 ≤ tickerInterval seed ∧ tickerInterval seed ≤ 24) ∧
    (notificationsCleanerTick ctx (some e) now db =
      (some (Err.wrap "failed to deleteOldSentNotifications"
        (Err.wrap "failed to delete old data from sent_notifications" e)),
       db) ∧
     notificationsCleanerRun ctx now (.tick (some e) :: evs) db =
       notificationsCleanerRun ctx now evs db ∧
     announcementsCleanerTick ctx (some e) now db =
      (some (Err.wrap "failed to deleteOldSentAnnouncements"
        (Err.wrap "failed to delete old data from sent_announcements" e)),
       db) ∧
     announcementsCleanerRun ctx now (.tick (some e) :: evs) db =
       announcementsCleanerRun ctx now evs db) ∧
    (notificationsCleanerRun ctx now (.ctxDone :: evs) db = (db, true) ∧
     announcementsCleanerRun ctx now (.ctxDone :: evs) db = (db, true)) ∧
    ((notificationsCleanerRun ctxC now evs db).1 = db ∧
     (announcementsCleanerRun ctxC now evs db).1 = db) := by
  have hTickN : notificationsCleanerTick ctx (some e) now db =
      (some (Err.wrap "failed to deleteOldSentNotifications"
        (Err.wrap "failed to delete old data from sent_notifications" e)),
       db) := by
    simp [notificationsCleanerTick, deleteOldSentNotifications,
      cleanerPassCtx, Ctx.withTimeout, hctx, wrapErr]
  have hTickA : announcementsCleanerTick ctx (some e) now db =
      (some (Err.wrap "failed to deleteOldSentAnnouncements"
        (Err.wrap "failed to delete old data from sent_announcements" e)),
       db) := by
    simp [announcementsCleanerTick, deleteOldSentAnnouncements,
      cleanerPassCtx, Ctx.withTimeout, hctx, wrapErr]
  refine ⟨⟨?_, ?_⟩, ⟨hTickN, ?_, hTickA, ?_⟩, ⟨rfl, rfl⟩, ?_, ?_⟩
  · unfold tickerInterval randIntn
    omega
  · unfold tickerInterval randIntn
    omega
  · show (notificationsCleanerRun ctx now evs
      (notificationsCleanerTick ctx (some e) now db).2) =
      notificationsCleanerRun ctx now evs db
    rw [hTickN]
  · show (announcementsCleanerRun ctx now evs
      (announcementsCleanerTick ctx (some e) now db).2) =
      announcementsCleanerRun ctx now evs db
    rw [hTickA]
  · exact notificationsCleanerRun_cancelled ctxC now eC hctxC evs db
  · exact announcementsCleanerRun_cancelled ctxC now eC hctxC evs db

/-- Witness for C4 at seed 7, the background context, the concrete cancelled
context, and a two-event trace. -/
theorem sweeper_interval_logs_continues_terminates_witness :
    (1 ≤ tickerInterval 7 ∧ tickerInterval 7 ≤ 24) ∧
    (notificationsCleanerTick Ctx.background (some (Err.base "db down")) 30
        pruneDB =
      (some (Err.wrap "failed to deleteOldSentNotifications"
        (Err.wrap "failed to delete old data from sent_notifications"
          (Err.base "db down"))),
       pruneDB) ∧
     notificationsCleanerRun Ctx.background 30
        (.tick (some (Err.base "db down")) :: [.tick none]) pruneDB =
       notificationsCleanerRun Ctx.background 30 [.tick none] pruneDB ∧
     announcementsCleanerTick Ctx.background (some (Err.base "db down")) 30
        pruneDB =
      (some (Err.wrap "failed to deleteOldSentAnnouncements"
        (Err.wrap "failed to delete old data from sent_announcements"
          (Err.base "db down"))),
       pruneDB) ∧
     announcementsCleanerRun Ctx.background 30
        (.tick (some (Err.base "db down")) :: [.tick none]) pruneDB =
       announcementsCleanerRun Ctx.background 30 [.tick none] pruneDB) ∧
    (notificationsCleanerRun Ctx.background 30 (.ctxDone :: [.tick none])
        pruneDB = (pruneDB, true) ∧
     announcementsCleanerRun Ctx.background 30 (.ctxDone :: [.tick none])
        pruneDB = (pruneDB, true)) ∧
    ((notificationsCleanerRun cancelledCtx 30 [.tick none] pruneDB).1 =
        pruneDB ∧
     (announcementsCleanerRun cancelledCtx 30 [.tick none] pruneDB).1 =
        pruneDB) :=
  sweeper_interval_logs_continues_terminates 7 Ctx.background cancelledCtx
    30 pruneDB (Err.base "db down") (Err.base "context canceled")
    [.tick none] rfl rfl

/-- C5 counterexample: `CheckHealth` forwards the caller's context to the
store ping unchanged — called with a deadline-free context, the probe runs
under no deadline at all, not under the fixed 30-unit deadline the claim
asserts for every externally-triggered operation. -/
theorem checkHealth_unbounded_counterexample :
    ((CheckHealth Ctx.background (fun _ => none) (fun _ => none)
        (fun _ => none)).2).deadline = none ∧
    ((CheckHealth Ctx.background (fun _ => none) (fun _ => none)
        (fun _ => none)).2).deadline ≠ some cleanerDeadline := by
  refine ⟨rfl, ?_⟩
  intro h
  simp [CheckHealth, Ctx.background] at h

/-- C5 (amended): each cleanup pass — but not the health probe — runs under
a context carrying the fixed 30-unit deadline installed by
`context.WithTimeout`; a pass that fails (for instance by exceeding it)
aborts only that pass: the loop proceeds and the following pass executes
against the store exactly as it would have anyway. -/
theorem cleaner_pass_deadline_isolated (ctx : Ctx) (now : Int) (db : DB)
    (e : Err) (evs : List SweeperEvent) (hctx : ctx.err = none)
    (hnd : ctx.deadline = none) :
    (cleanerPassCtx ctx).deadline = some 30 ∧
    cleanerDeadline = 30 ∧
    notificationsCleanerRun ctx now
        (.tick (some e) :: .tick none :: evs) db =
      notificationsCleanerRun ctx now (.tick none :: evs) db ∧
    announcementsCleanerRun ctx now
        (.tick (some e) :: .tick none :: evs) db =
      announcementsCleanerRun ctx now (.tick none :: evs) db := by
  have hTickN : (notificationsCleanerTick ctx (some e) now db).2 = db := by
    simp [notificationsCleanerTick, deleteOldSentNotifications,
      cleanerPassCtx, Ctx.withTimeout, hctx]
  have hTickA : (announcementsCleanerTick ctx (some e) now db).2 = db := by
    simp [announcementsCleanerTick, deleteOldSentAnnouncements,
      cleanerPassCtx, Ctx.withTimeout, hctx]
  refine ⟨?_, rfl, ?_, ?_⟩
  · simp [cleanerPassCtx, Ctx.withTimeout, hnd, cleanerDeadline]
  · show (notificationsCleanerRun ctx now (.tick none :: evs)
      (notificationsCleanerTick ctx (some e) now db).2) =
      notificationsCleanerRun ctx now (.tick none :: evs) db
    rw [hTickN]
  · show (announcementsCleanerRun ctx now (.tick none :: evs)
      (announcementsCleanerTick ctx (some e) now db).2) =
      announcementsCleanerRun ctx now (.tick none :: evs) db
    rw [hTickA]

/-- Witness for the amended C5 at the background context. -/
theorem cleaner_pass_deadline_isolated_witness :
    (cleanerPassCtx Ctx.background).deadline = some 30 ∧
    cleanerDeadline = 30 ∧
    notificationsCleanerRun Ctx.background 30
        (.tick (some (Err.base "deadline exceeded")) :: .tick none :: [])
        pruneDB =
      notificationsCleanerRun Ctx.background 30 (.tick none :: []) pruneDB ∧
    announcementsCleanerRun Ctx.background 30
        (.tick (some (Err.base "deadline exceeded")) :: .tick none :: [])
        pruneDB =
      announcementsCleanerRun Ctx.background 30 (.tick none :: []) pruneDB :=
  cleaner_pass_deadline_isolated Ctx.background 30 pruneDB
    (Err.base "deadline exceeded") [] rfl rfl

/-! ## Claims about ledger keying, suppression, health and news -/

/-- C6: personal sent-records are addressed by a composite key that includes
the recipient while announcements are addressed without any user identity:
the delete statements match exactly on those keys, two recipients of the
same broadcast content share one key (one row), two recipients of the same
personal type/key have distinct keys — deleting one recipient's personal
row leaves the other's, and the shared announcement row is removed whichever
recipient's copy drives the delete. -/
theorem ledger_keying_personal_vs_broadcast
    (n1 n2 : SentNotification) (a1 a2 : SentAnnouncement)
    (hu : n1.userID ≠ n2.userID)
    (hn1 : n1.uniqueness = n2.uniqueness)
    (hn2 : n1.notificationType = n2.notificationType)
    (hn3 : n1.notificationChannel = n2.notificationChannel)
    (hn4 : n1.notificationChannelValue = n2.notificationChannelValue)
    (ha1 : a1.uniqueness = a2.uniqueness)
    (ha2 : a1.notificationType = a2.notificationType)
    (ha3 : a1.notificationChannel = a2.notificationChannel)
    (ha4 : a1.notificationChannelValue = a2.notificationChannelValue) :
    (∀ q r : SentNotification,
       sentNotificationDeleteMatches q r = true ↔
         sentNotificationKey r = sentNotificationKey q) ∧
    (∀ q r : SentAnnouncement,
       sentAnnouncementDeleteMatches q r = true ↔
         sentAnnouncementKey r = sentAnnouncementKey q) ∧
    sentAnnouncementKey a1 = sentAnnouncementKey a2 ∧
    sentNotificationKey n1 ≠ sentNotificationKey n2 ∧
    (deleteSentNotification
        { sentNotifications := [n1, n2], sentAnnouncements := [] } n1
      ).sentNotifications = [n2] ∧
    (deleteSentAnnouncement
        { sentNotifications := [], sentAnnouncements := [a1] } a2
      ).sentAnnouncements = [] := by
  have hm12 : sentNotificationDeleteMatches n1 n2 = false := by
    have hfalse : (n2.userID == n1.userID) = false := by
      simp only [beq_eq_false_iff_ne, ne_eq]
      exact Ne.symm hu
    unfold sentNotificationDeleteMatches
    rw [hfalse]
    simp
  have hm11 : sentNotificationDeleteMatches n1 n1 = true := by
    simp [sentNotificationDeleteMatches]
  have hma : sentAnnouncementDeleteMatches a2 a1 = true := by
    simp [sentAnnouncementDeleteMatches, ha1, ha2, ha3, ha4]
  refine ⟨?_, ?_, ?_, ?_, ?_, ?_⟩
  · intro q r
    simp [sentNotificationDeleteMatches, sentNotificationKey,
      Prod.mk.injEq, Bool.and_eq_true, beq_iff_eq, and_assoc]
  · intro q r
    simp [sentAnnouncementDeleteMatches, sentAnnouncementKey,
      Prod.mk.injEq, Bool.and_eq_true, beq_iff_eq, and_assoc]
  · simp [sentAnnouncementKey, Prod.mk.injEq, ha1, ha2, ha3, ha4]
  · simp only [sentNotificationKey, Prod.mk.injEq, ne_eq, not_and]
    intro h
    exact absurd h hu
  · simp [deleteSentNotification, List.filter_cons, hm11, hm12]
  · simp [deleteSentAnnouncement, List.filter_cons, hma]

/-- A personal row for a given recipient, identical in every other field. -/
def snUser (u : String) : SentNotification :=
  { sentAt := 1, language := "en", userID := u, uniqueness := "badge:gold"
    notificationType := "badge", notificationChannel := "push"
    notificationChannelValue := "tok" }

/-- A broadcast row at a given send time, identical in every other field. -/
def saAt (t : Int) : SentAnnouncement :=
  { sentAt := t, language := "en", uniqueness := "news:1"
    notificationType := "news", notificationChannel := "push"
    notificationChannelValue := "all" }

/-- Witness for C6 with recipients alice and bob. -/
theorem ledger_keying_personal_vs_broadcast_witness :
    (∀ q r : SentNotification,
       sentNotificationDeleteMatches q r = true ↔
         sentNotificationKey r = sentNotificationKey q) ∧
    (∀ q r : SentAnnouncement,
       sentAnnouncementDeleteMatches q r = true ↔
         sentAnnouncementKey r = sentAnnouncementKey q) ∧
    sentAnnouncementKey (saAt 1) = sentAnnouncementKey (saAt 2) ∧
    sentNotificationKey (snUser "alice") ≠ sentNotificationKey
      (snUser "bob") ∧
    (deleteSentNotification
        { sentNotifications := [snUser "alice", snUser "bob"]
          sentAnnouncements := [] } (snUser "alice")
      ).sentNotifications = [snUser "bob"] ∧
    (deleteSentAnnouncement
        { sentNotifications := [], sentAnnouncements := [saAt 1] } (saAt 2)
      ).sentAnnouncements = [] :=
  ledger_keying_personal_vs_broadcast (snUser "alice") (snUser "bob")
    (saAt 1) (saAt 2) (by decide) rfl rfl rfl rfl rfl rfl rfl rfl

/-- The suppression config of the spec's example: disabled badges list
["Gold"]. -/
def goldBadgeCfg : Config :=
  { disabledAchievementsNotifications :=
      { levels := [], badges := ["Gold"], roles := [] } }

/-- C7: each suppression predicate holds exactly when the name matches some
entry of its configured list case-insensitively; an empty list disables
nothing; the list ["Gold"] suppresses badge "gold" in any case and leaves
badge "Silver" alone. -/
theorem suppression_case_insensitive_iff :
    (∀ (cfg : Config) (name : String),
       IsLevelNotificationDisabled cfg name = true ↔
         ∃ l ∈ cfg.disabledAchievementsNotifications.levels,
           equalFold l name = true) ∧
    (∀ (cfg : Config) (name : String),
       IsBadgeNotificationDisabled cfg name = true ↔
         ∃ b ∈ cfg.disabledAchievementsNotifications.badges,
           equalFold b name = true) ∧
    (∀ (cfg : Config) (name : String),
       IsRoleNotificationDisabled cfg name = true ↔
         ∃ r ∈ cfg.disabledAchievementsNotifications.roles,
           equalFold r name = true) ∧
    (∀ name : String,
       IsLevelNotificationDisabled ⟨⟨[], [], []⟩⟩ name = false ∧
       IsBadgeNotificationDisabled ⟨⟨[], [], []⟩⟩ name = false ∧
       IsRoleNotificationDisabled ⟨⟨[], [], []⟩⟩ name = false) ∧
    IsBadgeNotificationDisabled goldBadgeCfg "gold" = true ∧
    IsBadgeNotificationDisabled goldBadgeCfg "GOLD" = true ∧
    IsBadgeNotificationDisabled goldBadgeCfg "gOlD" = true ∧
    IsBadgeNotificationDisabled goldBadgeCfg "Silver" = false := by
  refine ⟨?_, ?_, ?_, ?_, by decide, by decide, by decide, by decide⟩
  · intro cfg name
    rcases h : cfg.disabledAchievementsNotifications.levels with _ | ⟨l, ls⟩ <;>
      simp [IsLevelNotificationDisabled, h, List.any_eq_true]
  · intro cfg name
    rcases h : cfg.disabledAchievementsNotifications.badges with _ | ⟨b, bs⟩ <;>
      simp [IsBadgeNotificationDisabled, h, List.any_eq_true]
  · intro cfg name
    rcases h : cfg.disabledAchievementsNotifications.roles with _ | ⟨r, rs⟩ <;>
      simp [IsRoleNotificationDisabled, h, List.any_eq_true]
  · intro name
    exact ⟨rfl, rfl, rfl⟩

/-- A probe step that succeeds, for concrete instances. -/
def okProbe : Ctx → Option Err := fun _ => none

/-- A probe step that fails, for concrete instances. -/
def failProbe : Ctx → Option Err := fun _ => some (Err.base "broker down")

/-- C8: `CheckHealth` succeeds exactly when both external checks succeed —
an error from the store ping or from the broker round-trip each makes the
probe fail, and success requires both. -/
theorem checkHealth_succeeds_iff_both (ctx : Ctx)
    (ping marshal send : Ctx → Option Err) (hm : marshal ctx = none) :
    (CheckHealth ctx ping marshal send).1 = none ↔
      ping ctx = none ∧ send ctx = none := by
  rcases hp : ping ctx with _ | e
  · rcases hs : send ctx with _ | e'
    · simp [CheckHealth, hp, hm, hs, wrapErr]
    · simp [CheckHealth, hp, hm, hs, wrapErr]
  · simp [CheckHealth, hp, wrapErr]

/-- Witness for C8 with a healthy store and a failing broker. -/
theorem checkHealth_succeeds_iff_both_witness :
    (CheckHealth Ctx.background okProbe okProbe failProbe).1 = none ↔
      okProbe Ctx.background = none ∧ failProbe Ctx.background = none :=
  checkHealth_succeeds_iff_both Ctx.background okProbe okProbe failProbe rfl

/-- C10: `GetNews` returns the post-processed rows; an item the requesting
user has not viewed (`Viewed` present and false) created strictly before the
`createdAfter` cutoff is reported with `Viewed = true`; and a nil result
slice comes back as an empty list, not an error. -/
theorem getNews_marks_stale_unviewed_and_nil_empty
    (rows : List PersonalNews) (cutoff : Int) (f : String → String)
    (elem : PersonalNews) (hv : elem.viewed = some false)
    (hc : elem.createdAt < cutoff) :
    GetNews Ctx.background (.ok (some rows)) cutoff f =
      .ok (rows.map (getNewsPostProcess cutoff f)) ∧
    (getNewsPostProcess cutoff f elem).viewed = some true ∧
    (elem ∈ rows →
      getNewsPostProcess cutoff f elem ∈
        rows.map (getNewsPostProcess cutoff f)) ∧
    GetNews Ctx.background (.ok none) cutoff f = .ok [] := by
  refine ⟨rfl, ?_, fun h => List.mem_map_of_mem _ h, rfl⟩
  simp [getNewsPostProcess, hv, hc]

/-- A news row that is unviewed and older than the cutoff 10. -/
def staleNews : PersonalNews :=
  { viewed := some false, createdAt := 0
    notificationChannels := some ["push"], updatedAt := some 5
    imageURL := "img.png" }

/-- Witness for C10 at one concrete stale unviewed row. -/
theorem getNews_marks_stale_unviewed_and_nil_empty_witness :
    GetNews Ctx.background (.ok (some [staleNews])) 10 id =
      .ok ([staleNews].map (getNewsPostProcess 10 id)) ∧
    (getNewsPostProcess 10 id staleNews).viewed = some true ∧
    (staleNews ∈ [staleNews] →
      getNewsPostProcess 10 id staleNews ∈
        [staleNews].map (getNewsPostProcess 10 id)) ∧
    GetNews Ctx.background (.ok none) 10 id = .ok [] :=
  getNews_marks_stale_unviewed_and_nil_empty [staleNews] 10 id staleNews
    rfl (by decide)

end Husky
